import Mathlib

/-!
Verification development for the taujs-react streaming SSR layer.

Shallow embedding of the stream lifecycle utilities
(`src/utils/Streaming.ts`), the per-request data store
(`src/SSRDataStore.tsx`) and the streaming renderer facade
(`createRenderer().renderStream`).  JavaScript values are modelled as
follows: an `Error`-like value is represented by its `message` string
(`JSErr`); `undefined` is represented by `Option.none`; a promise is
represented by its eventual outcome; `try { f() } catch {}` around an
effectful call is represented by a total state-transition function that
records the call and discards the thrown value.
-/

namespace Taujs

/-- JavaScript `Error`-like value, identified by its `message` string. -/
structure JSErr where
  message : String
deriving DecidableEq, Repr

/-! ## Settler (src/utils/Streaming.ts, `createSettler`, lines 23-42)

`createSettler` closes over a `settled` flag and the promise executor's
`resolve`/`reject`.  We model the observable state: the flag and the
outcome the promise `done` settles with (`none` while still pending). -/

/-- Outcome a settled promise carries: fulfilled with no value, or rejected
with an error. -/
inductive SOutcome where
  | fulfilled
  | rejectedWith (e : JSErr)
deriving DecidableEq, Repr

/-- Observable state of one settler: the `settled` flag and the outcome of
`done` (`none` = still pending). -/
structure SettlerState where
  settled : Bool
  outcome : Option SOutcome
deriving DecidableEq, Repr

/-- State of a freshly created settler: not settled, `done` pending. -/
def settlerInit : SettlerState := { settled := false, outcome := none }

/-- `resolve = () => { if (!settled) { settled = true; r(); } }`. -/
def settlerResolve (s : SettlerState) : SettlerState :=
  if s.settled then s else { settled := true, outcome := some .fulfilled }

/-- `reject = (e) => { if (!settled) { settled = true; j(e); } }`. -/
def settlerReject (e : JSErr) (s : SettlerState) : SettlerState :=
  if s.settled then s else { settled := true, outcome := some (.rejectedWith e) }

/-- One call a client can make on a settler. -/
inductive SettleCall where
  | resolveCall
  | rejectCall (e : JSErr)
deriving DecidableEq, Repr

/-- Dispatch one call to the settler. -/
def settlerStep (s : SettlerState) : SettleCall → SettlerState
  | .resolveCall => settlerResolve s
  | .rejectCall e => settlerReject e s

/-- Run a whole sequence of `resolve`/`reject` calls. -/
def settlerRun (s : SettlerState) (cs : List SettleCall) : SettlerState :=
  cs.foldl settlerStep s

/-- Outcome the first call imposes on `done`. -/
def settleOutcome : SettleCall → SOutcome
  | .resolveCall => .fulfilled
  | .rejectCall e => .rejectedWith e

theorem settlerStep_of_settled (s : SettlerState) (c : SettleCall)
    (h : s.settled = true) : settlerStep s c = s := by
  cases c <;> simp [settlerStep, settlerResolve, settlerReject, h]

theorem settlerRun_of_settled (s : SettlerState) (cs : List SettleCall)
    (h : s.settled = true) : settlerRun s cs = s := by
  induction cs with
  | nil => rfl
  | cons c cs ih =>
      simp only [settlerRun, List.foldl_cons, settlerStep_of_settled s c h]
      exact ih

/-! ## Benign-error classifier (src/utils/Streaming.ts, lines 8-14)

`DEFAULT_BENIGN_ERRORS = /ECONNRESET|EPIPE|socket hang up|aborted|premature/i`
and `isBenignStreamErr(err) = DEFAULT_BENIGN_ERRORS.test(String(err?.message ?? ''))`.
The case-insensitive alternation test is embedded as: lower-case both
sides and scan for any of the five literal alternatives as a substring.
An error-like input is represented by its optional `message`
(`none` = the property is absent, coerced to the empty string). -/

/-- Boolean list-prefix test, used by the substring scanner. -/
def isPrefixL : List Char → List Char → Bool
  | [], _ => true
  | _ :: _, [] => false
  | a :: as, b :: bs => a == b && isPrefixL as bs

/-- Boolean substring scan: does `p` occur contiguously inside `s`? -/
def containsSub (p : List Char) : List Char → Bool
  | [] => isPrefixL p []
  | c :: rest => isPrefixL p (c :: rest) || containsSub p rest

/-- ASCII lower-casing of one character (the patterns are all ASCII, so
ASCII folding models the `/i` flag for them). -/
def lowerChar (c : Char) : Char :=
  if 65 ≤ c.toNat ∧ c.toNat ≤ 90 then Char.ofNat (c.toNat + 32) else c

/-- Lower-case a character list. -/
def toLowerL (s : List Char) : List Char := s.map lowerChar

/-- The five alternatives of `DEFAULT_BENIGN_ERRORS`. -/
def DEFAULT_BENIGN_ERRORS : List String :=
  ["ECONNRESET", "EPIPE", "socket hang up", "aborted", "premature"]

/-- Case-insensitive alternation test, modelling `pattern.test(s)` for the
`/i`-flagged alternation of literal strings. -/
def regexTestCI (pats : List String) (s : String) : Bool :=
  pats.any (fun p => containsSub (toLowerL p.toList) (toLowerL s.toList))

/-- `String(err?.message ?? '')`: a missing message coerces to `""`. -/
def jsString (m : Option String) : String := m.getD ""

/-- `isBenignStreamErr` from the source, over the message of the error-like
input (`none` models an error-like object lacking a `message`). -/
def isBenignStreamErr (errMessage : Option String) : Bool :=
  regexTestCI DEFAULT_BENIGN_ERRORS (jsString errMessage)

/-- Specification-side predicate: `pat` occurs in `m` case-insensitively
(an explicit decomposition witness, independent of the scanner). -/
def MsgContainsCI (m pat : String) : Prop :=
  ∃ l r, toLowerL m.toList = l ++ toLowerL pat.toList ++ r

theorem isPrefixL_append (p t : List Char) : isPrefixL p (p ++ t) = true := by
  induction p with
  | nil => rfl
  | cons a as ih => simp [isPrefixL, ih]

theorem containsSub_append_left (p r : List Char) :
    containsSub p (p ++ r) = true := by
  cases p with
  | nil =>
      cases r with
      | nil => rfl
      | cons c rest => simp [containsSub, isPrefixL]
  | cons a as =>
      simp only [List.cons_append, containsSub, Bool.or_eq_true]
      exact Or.inl (isPrefixL_append (a :: as) r)

theorem containsSub_of_decomp (p m l r : List Char)
    (h : m = l ++ p ++ r) : containsSub p m = true := by
  induction l generalizing m with
  | nil =>
      subst h
      exact containsSub_append_left p r
  | cons a as ih =>
      subst h
      simp only [List.cons_append, containsSub, Bool.or_eq_true]
      exact Or.inr (ih _ rfl)

/-! ## Stream lifecycle controller (src/utils/Streaming.ts, lines 113-189)

`createStreamController(writable, logger)` closes over an `aborted` flag,
a settler, and four optional cleanup hooks installed through setters.
`cleanup(benign, err)` flips the flag, invokes each registered hook inside
`try {} catch {}` (exceptions swallowed), conditionally destroys the
writable, and settles.  We model each hook by whether it is registered,
whether invoking it throws (the throw is swallowed), and how many times it
has been invoked; the writable by its `writableEnded`/`destroyed` flags
and a count of `destroy()` invocations. -/

/-- One registered-or-absent cleanup hook with its invocation count. -/
structure Hook where
  registered : Bool
  throws : Bool
  calls : Nat
deriving DecidableEq, Repr

/-- `hook?.()` inside `try {} catch {}`: invoked only when registered;
a thrown exception is swallowed, so the state change is just the count. -/
def invokeHook (h : Hook) : Hook :=
  if h.registered then { h with calls := h.calls + 1 } else h

/-- Observable state of the transport sink. -/
structure WritableState where
  writableEnded : Bool
  destroyed : Bool
  destroyCalls : Nat
  destroyThrows : Bool
deriving DecidableEq, Repr

/-- `if (!writable.writableEnded && !writable.destroyed) writable.destroy()`
inside `try {} catch {}`: the call is attempted exactly under that
condition and a throwing `destroy` is swallowed. -/
def destroyWritable (w : WritableState) : WritableState :=
  if !w.writableEnded && !w.destroyed then
    { w with destroyCalls := w.destroyCalls + 1
             destroyed := w.destroyed || !w.destroyThrows }
  else w

/-- Observable state of one stream controller. -/
structure CtrlState where
  aborted : Bool
  settle : SettlerState
  stopShellTimer : Hook
  removeAbortListener : Hook
  guardsCleanup : Hook
  streamAbort : Hook
  writable : WritableState
  teardowns : Nat
  warnLog : List String
  errorLog : List (String × Option JSErr)
deriving DecidableEq, Repr

/-- `cleanup(benign, err?)` from the source: early-return when already
aborted; otherwise flip the flag, run the four hooks (each wrapped),
conditionally destroy the writable, then settle — resolve when benign,
reject with `err` when fatal and `err` is defined, resolve otherwise. -/
def cleanup (benign : Bool) (err : Option JSErr) (s : CtrlState) : CtrlState :=
  if s.aborted then s
  else
    let s' : CtrlState :=
      { s with
        aborted := true
        teardowns := s.teardowns + 1
        stopShellTimer := invokeHook s.stopShellTimer
        removeAbortListener := invokeHook s.removeAbortListener
        guardsCleanup := invokeHook s.guardsCleanup
        streamAbort := invokeHook s.streamAbort
        writable := destroyWritable s.writable }
    if benign then { s' with settle := settlerResolve s'.settle }
    else
      match err with
      | some e => { s' with settle := settlerReject e s'.settle }
      | none => { s' with settle := settlerResolve s'.settle }

/-- `benignAbort(why)`: no-op when aborted; otherwise `warn(why)` then
`cleanup(true)`. -/
def benignAbort (why : String) (s : CtrlState) : CtrlState :=
  if s.aborted then s
  else cleanup true none { s with warnLog := why :: s.warnLog }

/-- `fatalAbort(err)`: no-op when aborted; otherwise log
`'Stream aborted with error:'` at error level then `cleanup(false, err)`.
`err = none` models `fatalAbort(undefined)`. -/
def fatalAbort (err : Option JSErr) (s : CtrlState) : CtrlState :=
  if s.aborted then s
  else cleanup false err
    { s with errorLog := ("Stream aborted with error:", err) :: s.errorLog }

/-- One termination call on the controller, from any of its entry points
(transport guards, shell timer, abort signal, manual abort, engine
callbacks) — they all route through these two functions. -/
inductive AbortCall where
  | benign (why : String)
  | fatal (err : Option JSErr)
deriving DecidableEq, Repr

/-- Dispatch one termination call. -/
def ctrlStep (s : CtrlState) : AbortCall → CtrlState
  | .benign why => benignAbort why s
  | .fatal err => fatalAbort err s

/-- Run a whole interleaving of termination calls. -/
def ctrlRun (s : CtrlState) (cs : List AbortCall) : CtrlState :=
  cs.foldl ctrlStep s

/-- Registration configuration for one hook (present? throwing?). -/
structure HookCfg where
  registered : Bool
  throws : Bool
deriving DecidableEq, Repr

/-- Hook in its initial (never invoked) state. -/
def mkHook (c : HookCfg) : Hook := { registered := c.registered, throws := c.throws, calls := 0 }

/-- Configuration of a controller at creation time: which hooks the caller
registered through the four setters, and the sink's state. -/
structure CtrlCfg where
  stopTimerCfg : HookCfg
  removeListenerCfg : HookCfg
  guardsCfg : HookCfg
  streamAbortCfg : HookCfg
  sinkEnded : Bool
  sinkDestroyed : Bool
  sinkDestroyThrows : Bool
deriving DecidableEq, Repr

/-- `createStreamController` result after the setters have run: live,
settler pending, hooks never invoked, no teardown, empty logs. -/
def ctrlInit (cfg : CtrlCfg) : CtrlState :=
  { aborted := false
    settle := settlerInit
    stopShellTimer := mkHook cfg.stopTimerCfg
    removeAbortListener := mkHook cfg.removeListenerCfg
    guardsCleanup := mkHook cfg.guardsCfg
    streamAbort := mkHook cfg.streamAbortCfg
    writable :=
      { writableEnded := cfg.sinkEnded
        destroyed := cfg.sinkDestroyed
        destroyCalls := 0
        destroyThrows := cfg.sinkDestroyThrows }
    teardowns := 0
    warnLog := []
    errorLog := [] }

/-- Outcome `done` settles with, as a function of the first effective
termination call. -/
def abortOutcome : AbortCall → SOutcome
  | .benign _ => .fulfilled
  | .fatal (some e) => .rejectedWith e
  | .fatal none => .fulfilled

theorem ctrlStep_of_aborted (s : CtrlState) (c : AbortCall)
    (h : s.aborted = true) : ctrlStep s c = s := by
  cases c <;> simp [ctrlStep, benignAbort, fatalAbort, h]

theorem ctrlRun_of_aborted (s : CtrlState) (cs : List AbortCall)
    (h : s.aborted = true) : ctrlRun s cs = s := by
  induction cs with
  | nil => rfl
  | cons c cs ih =>
      simp only [ctrlRun, List.foldl_cons, ctrlStep_of_aborted s c h]
      exact ih

theorem ctrlStep_init_aborted (cfg : CtrlCfg) (c : AbortCall) :
    (ctrlStep (ctrlInit cfg) c).aborted = true := by
  cases c with
  | benign why => simp [ctrlStep, benignAbort, ctrlInit, cleanup]
  | fatal err =>
      cases err <;>
        simp [ctrlStep, fatalAbort, ctrlInit, cleanup]

/-- C3: for every settler and every sequence of `resolve()`/`reject(e)`
calls, only the first call has effect: the state after the whole sequence
equals the state after the first call alone (all later calls of either
kind are ignored), `done` settles exactly once with the first call's
outcome (fulfilled for resolve, rejected with `e` for reject), and
`isSettled()` returns `true` after the first call. -/
theorem createSettler_first_call_wins (c : SettleCall) (cs : List SettleCall) :
    settlerRun settlerInit (c :: cs) = settlerStep settlerInit c
    ∧ (settlerStep settlerInit c).settled = true
    ∧ (settlerStep settlerInit c).outcome = some (settleOutcome c) := by
  have h1 : (settlerStep settlerInit c).settled = true := by
    cases c <;> simp [settlerStep, settlerResolve, settlerReject, settlerInit]
  refine ⟨?_, h1, ?_⟩
  · show settlerRun (settlerStep settlerInit c) cs = settlerStep settlerInit c
    exact settlerRun_of_settled _ cs h1
  · cases c <;> simp [settlerStep, settlerResolve, settlerReject, settlerInit, settleOutcome]

/-- C1: for every controller configuration and every interleaving of
`benignAbort`/`fatalAbort` calls (the common funnel of the transport
guards, the shell timer and the abort-signal listener), only the first
call has any effect: the run of the whole interleaving equals the state
after the first call alone, the `aborted` flag is then `true` (and, the
run being constant from that point on, never reverts), exactly one
teardown has executed, and `done` is settled exactly once — fulfilled if
the first call was benign, rejected with `err` if it was `fatalAbort(err)`
with `err` defined, and fulfilled if it was `fatalAbort(undefined)`. -/
theorem createStreamController_abort_idempotent
    (cfg : CtrlCfg) (c : AbortCall) (cs : List AbortCall) :
    ctrlRun (ctrlInit cfg) (c :: cs) = ctrlStep (ctrlInit cfg) c
    ∧ (ctrlStep (ctrlInit cfg) c).aborted = true
    ∧ (ctrlStep (ctrlInit cfg) c).teardowns = 1
    ∧ (ctrlStep (ctrlInit cfg) c).settle.settled = true
    ∧ (ctrlStep (ctrlInit cfg) c).settle.outcome = some (abortOutcome c) := by
  refine ⟨?_, ctrlStep_init_aborted cfg c, ?_, ?_, ?_⟩
  · show ctrlRun (ctrlStep (ctrlInit cfg) c) cs = ctrlStep (ctrlInit cfg) c
    exact ctrlRun_of_aborted _ cs (ctrlStep_init_aborted cfg c)
  · cases c with
    | benign why => simp [ctrlStep, benignAbort, ctrlInit, cleanup]
    | fatal err => cases err <;> simp [ctrlStep, fatalAbort, ctrlInit, cleanup]
  · cases c with
    | benign why =>
        simp [ctrlStep, benignAbort, ctrlInit, cleanup, settlerResolve, settlerInit]
    | fatal err =>
        cases err <;>
          simp [ctrlStep, fatalAbort, ctrlInit, cleanup, settlerResolve,
            settlerReject, settlerInit]
  · cases c with
    | benign why =>
        simp [ctrlStep, benignAbort, ctrlInit, cleanup, settlerResolve,
          settlerInit, abortOutcome]
    | fatal err =>
        cases err <;>
          simp [ctrlStep, fatalAbort, ctrlInit, cleanup, settlerResolve,
            settlerReject, settlerInit, abortOutcome]

/-- Configuration in which all four cleanup hooks are registered, with the
given throw behaviours. -/
def allHooksCfg (tThr rThr gThr aThr ended destroyed dThr : Bool) : CtrlCfg :=
  { stopTimerCfg := { registered := true, throws := tThr }
    removeListenerCfg := { registered := true, throws := rThr }
    guardsCfg := { registered := true, throws := gThr }
    streamAbortCfg := { registered := true, throws := aThr }
    sinkEnded := ended
    sinkDestroyed := destroyed
    sinkDestroyThrows := dThr }

/-- C2: for every controller with all four cleanup hooks registered
(stop-timer, remove-abort-listener, guards-cleanup, stream-abort) and any
non-empty interleaving of abort calls, every hook has been invoked exactly
once — whatever combination of hooks throws (each invocation is wrapped,
so a thrown exception is swallowed, never escapes the abort call, and
never blocks the later hooks or the settlement, which still completes) —
and `destroy()` is called on the transport sink exactly once if the sink
was neither already ended nor already destroyed at teardown time and never
otherwise, a throwing `destroy` being likewise swallowed. -/
theorem cleanup_invokes_every_hook_once
    (tThr rThr gThr aThr ended destroyed dThr : Bool)
    (c : AbortCall) (cs : List AbortCall) :
    (ctrlRun (ctrlInit (allHooksCfg tThr rThr gThr aThr ended destroyed dThr))
        (c :: cs)).stopShellTimer.calls = 1
    ∧ (ctrlRun (ctrlInit (allHooksCfg tThr rThr gThr aThr ended destroyed dThr))
        (c :: cs)).removeAbortListener.calls = 1
    ∧ (ctrlRun (ctrlInit (allHooksCfg tThr rThr gThr aThr ended destroyed dThr))
        (c :: cs)).guardsCleanup.calls = 1
    ∧ (ctrlRun (ctrlInit (allHooksCfg tThr rThr gThr aThr ended destroyed dThr))
        (c :: cs)).streamAbort.calls = 1
    ∧ (ctrlRun (ctrlInit (allHooksCfg tThr rThr gThr aThr ended destroyed dThr))
        (c :: cs)).writable.destroyCalls
        = (if !ended && !destroyed then 1 else 0)
    ∧ (ctrlRun (ctrlInit (allHooksCfg tThr rThr gThr aThr ended destroyed dThr))
        (c :: cs)).settle.settled = true := by
  have hrun :
      ctrlRun (ctrlInit (allHooksCfg tThr rThr gThr aThr ended destroyed dThr))
          (c :: cs)
        = ctrlStep (ctrlInit (allHooksCfg tThr rThr gThr aThr ended destroyed dThr)) c := by
    show ctrlRun (ctrlStep _ c) cs = ctrlStep _ c
    exact ctrlRun_of_aborted _ cs (ctrlStep_init_aborted _ c)
  rw [hrun]
  cases c with
  | benign why =>
      cases ended <;> cases destroyed <;>
        (refine ⟨?_, ?_, ?_, ?_, ?_, ?_⟩ <;>
          simp [ctrlStep, benignAbort, ctrlInit, cleanup, allHooksCfg, mkHook,
            invokeHook, destroyWritable, settlerResolve, settlerInit])
  | fatal err =>
      cases err <;> cases ended <;> cases destroyed <;>
        (refine ⟨?_, ?_, ?_, ?_, ?_, ?_⟩ <;>
          simp [ctrlStep, fatalAbort, ctrlInit, cleanup, allHooksCfg, mkHook,
            invokeHook, destroyWritable, settlerResolve, settlerReject, settlerInit])

/-- C8: `isBenignStreamErr` is total (a Lean function, it cannot throw);
it returns `true` for every error whose message contains one of
`"ECONNRESET"`, `"EPIPE"`, `"socket hang up"`, `"aborted"`, `"premature"`
case-insensitively, `false` for the unrelated message `"boom"`, and
`false` for an error-like value lacking a `message` (treated as the empty
string). -/
theorem isBenignStreamErr_classification (m pat : String)
    (hp : pat ∈ DEFAULT_BENIGN_ERRORS) (hc : MsgContainsCI m pat) :
    isBenignStreamErr (some m) = true
    ∧ isBenignStreamErr (some "boom") = false
    ∧ isBenignStreamErr none = false := by
  refine ⟨?_, by decide, by decide⟩
  obtain ⟨l, r, hdec⟩ := hc
  have hsub : containsSub (toLowerL pat.toList) (toLowerL m.toList) = true :=
    containsSub_of_decomp _ _ l r hdec
  simp only [isBenignStreamErr, regexTestCI, jsString, Option.getD_some,
    List.any_eq_true]
  exact ⟨pat, hp, hsub⟩

/-- C8 witness: the classifier applied at the concrete message
`"Error: socket hang up"` through the main theorem. -/
theorem isBenignStreamErr_classification_witness :
    isBenignStreamErr (some "Error: socket hang up") = true
    ∧ isBenignStreamErr (some "boom") = false
    ∧ isBenignStreamErr none = false :=
  isBenignStreamErr_classification "Error: socket hang up" "socket hang up"
    (by decide)
    ⟨"error: ".toList, [], by decide⟩

/-! ## Transport guard wiring (src/utils/Streaming.ts, `wireWritableGuards`,
lines 53-95)

`wireWritableGuards(writable, { benignAbort, fatalAbort, onError?,
benignErrorPattern? })` registers one-shot handlers for the sink's
`error`/`close`/`finish` events.  We embed the dispatch of one event to
the list of calls the handler makes.  Note that the source signature
accepts no `onFinish` option: the destructured parameter list is exactly
`benignAbort, fatalAbort, onError, benignErrorPattern`, and the `finish`
handler is `add('finish', () => benignAbort('Stream finished (normal
completion)'))` unconditionally. -/

/-- One sink event, an error being represented by its optional message. -/
inductive GuardEvent where
  | errorEv (errMessage : Option String)
  | closeEv
  | finishEv
deriving DecidableEq, Repr

/-- One call a guard handler makes into the supplied callback set. -/
inductive GuardAction where
  | benignCall (why : String)
  | fatalCall (errMessage : Option String)
  | onErrorCall (errMessage : Option String)
  | onFinishCall
deriving DecidableEq, Repr

/-- Dispatch of one sink event by the guards wired from the source (with
the default benign pattern).  `onErrorSupplied` records whether the
optional `onError` callback was passed (`onError?.(err)`). -/
def wireWritableGuardsDispatch (onErrorSupplied : Bool) :
    GuardEvent → List GuardAction
  | .errorEv err =>
      if regexTestCI DEFAULT_BENIGN_ERRORS (jsString err) then
        [.benignCall "Client disconnected during stream"]
      else
        (if onErrorSupplied then [.onErrorCall err] else []) ++ [.fatalCall err]
  | .closeEv => [.benignCall "Writable closed early (likely client disconnect)"]
  | .finishEv => [.benignCall "Stream finished (normal completion)"]

/-- Modelled from the spec: the `finish` branch of transport guard wiring
as §4.3 describes it — "if an `onFinish` hook is supplied, call it;
otherwise → `benignAbort("Stream finished (normal completion)")`".  This
variant (together with the `controller.complete` method it is meant to
reach) is what the repository's own Streaming test suite and the
streaming facade's call site (`onFinish: () =>
controller.complete('Stream finished (normal completion)')`) expect, but
it is absent from `src/utils/Streaming.ts`. -/
def specFinishDispatch (onFinishSupplied : Bool) : List GuardAction :=
  if onFinishSupplied then [.onFinishCall]
  else [.benignCall "Stream finished (normal completion)"]

/-- C4: evaluation of the source at the claim's scenario.  When the sink
emits `finish` and an `onFinish` hook was supplied, the guard wiring in
`src/utils/Streaming.ts` still performs
`benignAbort("Stream finished (normal completion)")` — its parameter list
accepts no `onFinish` hook at all, so the dispatch cannot depend on one —
whereas the behaviour the claim (with the spec, the Streaming test suite,
and the facade call site) requires is to call the supplied hook and not
`benignAbort`.  The two dispatches differ. -/
theorem wireWritableGuards_finish_ignores_onFinish :
    (∀ onErrorSupplied : Bool,
      wireWritableGuardsDispatch onErrorSupplied .finishEv
        = [.benignCall "Stream finished (normal completion)"])
    ∧ specFinishDispatch true = [.onFinishCall]
    ∧ wireWritableGuardsDispatch true .finishEv ≠ specFinishDispatch true := by
  refine ⟨fun o => rfl, rfl, by decide⟩

/-! ## SSR data store (src/SSRDataStore.tsx, `createSSRStore`, lines 12-83)

The store is constructed from a raw value, a promise, or a zero-argument
promise factory.  `undefined` values are modelled as `Option.none`; a
promise by its eventual outcome.  The store's internal
`serverDataPromise` is `source.then(onFulfilled).catch(handleError)`:
`handleError` returns normally after recording the error, so
`serverDataPromise` itself always fulfils — a fact the snapshot embedding
records in its `pending` branch.  `handleError` normalises the rejection
value to an `Error`; we model rejection values that already are `Error`
instances, for which the normalisation is the identity. -/

/-- Store status, as in the source's `status` variable. -/
inductive StoreStatus where
  | pending
  | success
  | error
deriving DecidableEq, Repr

/-- Observable state of the store: `status`, `currentData`, `lastError`. -/
structure StoreState (V : Type) where
  status : StoreStatus
  currentData : Option V
  lastError : Option JSErr
deriving DecidableEq, Repr

/-- Eventual outcome of the supplied promise: fulfils with a value
(`none` models resolving to `undefined`) or rejects with an error. -/
inductive PromiseSpec (V : Type) where
  | resolvesTo (v : Option V)
  | rejectsWith (e : JSErr)
deriving DecidableEq, Repr

/-- The three accepted shapes of `initialDataOrPromise`. -/
inductive DataSource (V : Type) where
  | raw (v : Option V)
  | promiseSrc (p : PromiseSpec V)
  | factorySrc (p : PromiseSpec V)
deriving DecidableEq, Repr

/-- Store state right after `createSSRStore` returns: a raw value is
stored synchronously with `status = 'success'`; a promise or factory
leaves the store `'pending'`. -/
def createSSRStoreInit {V : Type} : DataSource V → StoreState V
  | .raw v => { status := .success, currentData := v, lastError := none }
  | .promiseSrc _ => { status := .pending, currentData := none, lastError := none }
  | .factorySrc _ => { status := .pending, currentData := none, lastError := none }

/-- Settling of the internal promise chain: fulfilment stores the data and
flips to `'success'`; rejection routes through `handleError`, which
records the (already-`Error`) value in `lastError` and flips to
`'error'`. -/
def settleStore {V : Type} (s : StoreState V) : PromiseSpec V → StoreState V
  | .resolvesTo v => { s with status := .success, currentData := v }
  | .rejectsWith e => { s with status := .error, lastError := some e }

/-- Store state once the data source has fully settled. -/
def storeAfter {V : Type} : DataSource V → StoreState V
  | .raw v => createSSRStoreInit (.raw v)
  | .promiseSrc p => settleStore (createSSRStoreInit (.promiseSrc p)) p
  | .factorySrc p => settleStore (createSSRStoreInit (.factorySrc p)) p

/-- How the eventually-settling awaitable thrown by a pending snapshot
behaves: it fulfils, or it rejects with an error. -/
inductive PendOutcome where
  | fulfils
  | rejectsWith (e : JSErr)
deriving DecidableEq, Repr

/-- Result of one `getSnapshot()` call: a value, a thrown pending
awaitable (with its eventual outcome), or a thrown non-thenable value. -/
inductive SnapResult (V : Type) where
  | ret (v : V)
  | thrPending (out : PendOutcome)
  | thrValue (e : JSErr)
deriving DecidableEq, Repr

/-- `lastError?.message || 'Unknown error'` — note `||`, so an empty
message also falls back. -/
def orUnknown (e : Option JSErr) : String :=
  match e with
  | some err => if err.message = "" then "Unknown error" else err.message
  | none => "Unknown error"

/-- `getSnapshot()` from the source: `pending` → throw `serverDataPromise`
(a thenable that always fulfils, since `handleError` swallows the
rejection); `error` → throw a fresh
`Error("SSR data fetch failed: " + (lastError?.message || 'Unknown error'))`;
`success` with `currentData === undefined` → throw a fresh
`Error('SSR data is undefined - store initialisation problem')`;
otherwise return `currentData`. -/
def getSnapshot {V : Type} (s : StoreState V) : SnapResult V :=
  match s.status with
  | .pending => .thrPending .fulfils
  | .error => .thrValue { message := "SSR data fetch failed: " ++ orUnknown s.lastError }
  | .success =>
      match s.currentData with
      | none => .thrValue { message := "SSR data is undefined - store initialisation problem" }
      | some v => .ret v

/-! ## All-ready delivery loop (src/unnamed/part_003, `onAllReady`,
lines 252-277)

`deliver` reads a snapshot; on success it calls `cb.onAllReady(data)` then
`cb.onFinish(data)`; on a thrown thenable it schedules
`.then(deliver).catch(e => { error('Data promise rejected:', e);
cb.onError(e); controller.fatalAbort(e); })`; on any other thrown value it
logs `'Unexpected throw from getSnapshot:'`, calls `cb.onError` and
`controller.fatalAbort`.  We drive the loop with the list of successive
snapshot results (one entry per `getSnapshot()` call) and record the
trace of calls it makes. -/

/-- One observable call made by the delivery loop. -/
inductive DeliverEv (V : Type) where
  | allReadyCb (v : V)
  | finishCb (v : V)
  | errorLogTag (tag : String) (e : JSErr)
  | onErrorCb (e : JSErr)
  | fatalAbortCall (e : JSErr)
deriving DecidableEq, Repr

/-- The delivery loop over the successive snapshot results. -/
def deliver {V : Type} : List (SnapResult V) → List (DeliverEv V)
  | [] => []
  | .ret v :: _ => [.allReadyCb v, .finishCb v]
  | .thrPending .fulfils :: rest => deliver rest
  | .thrPending (.rejectsWith e) :: _ =>
      [.errorLogTag "Data promise rejected:" e, .onErrorCb e, .fatalAbortCall e]
  | .thrValue e :: _ =>
      [.errorLogTag "Unexpected throw from getSnapshot:" e, .onErrorCb e,
        .fatalAbortCall e]

/-- Effect of one delivery-trace entry on the stream controller: only
`controller.fatalAbort(e)` touches it. -/
def applyDeliverEv {V : Type} (s : CtrlState) : DeliverEv V → CtrlState
  | .fatalAbortCall e => fatalAbort (some e) s
  | _ => s

/-- Apply a whole delivery trace to the controller. -/
def applyDeliver {V : Type} (s : CtrlState) (evs : List (DeliverEv V)) : CtrlState :=
  evs.foldl applyDeliverEv s

/-- Snapshot results seen by a delivery that first runs while the data
source is still pending and is retried after it settles (after settling
the store state no longer changes, so two entries suffice: the loop stops
at the first non-`fulfils` entry). -/
def snapScriptPreSettle {V : Type} (src : DataSource V) : List (SnapResult V) :=
  [getSnapshot (createSSRStoreInit src), getSnapshot (storeAfter src)]

/-- Fresh controller (as built at the top of `renderStream`) with no hooks
registered yet and a live sink. -/
def freshCtrl : CtrlState :=
  ctrlInit
    { stopTimerCfg := { registered := false, throws := false }
      removeListenerCfg := { registered := false, throws := false }
      guardsCfg := { registered := false, throws := false }
      streamAbortCfg := { registered := false, throws := false }
      sinkEnded := false
      sinkDestroyed := false
      sinkDestroyThrows := false }

/-- Wrapper error thrown by `getSnapshot` once the store is in the
`'error'` state. -/
def fetchFailedErr (e : JSErr) : JSErr :=
  { message := "SSR data fetch failed: " ++ orUnknown (some e) }

/-- Error thrown by `getSnapshot` for a resolved-but-`undefined` source. -/
def undefErr : JSErr :=
  { message := "SSR data is undefined - store initialisation problem" }

/-- C6: in the all-data-ready handler, a snapshot accessor that throws a
pending awaitable on its first call and returns `v` on its second makes
delivery retry after the awaitable settles and then invoke the caller's
`onAllReady` and `onFinish` with `v` exactly once each (the trace is
exactly those two calls, so `onError` is never invoked and no fatal abort
occurs), after which the controller is still live and `done` resolves
when the stream's normal completion settles it through the benign path;
whereas a snapshot accessor that throws a non-thenable value `e` makes
delivery log it as unexpected, notify `onError` with `e` and fatal-abort
the controller with `e`, so `done` rejects with `e`. -/
theorem onAllReady_retry_on_pending_snapshot (v : String) (e : JSErr) :
    deliver [SnapResult.thrPending .fulfils, SnapResult.ret v]
      = [DeliverEv.allReadyCb v, DeliverEv.finishCb v]
    ∧ (benignAbort "Stream finished (normal completion)"
        (applyDeliver freshCtrl
          (deliver [SnapResult.thrPending .fulfils, SnapResult.ret v]))).settle.outcome
      = some SOutcome.fulfilled
    ∧ deliver [(SnapResult.thrValue e : SnapResult String)]
      = [DeliverEv.errorLogTag "Unexpected throw from getSnapshot:" e,
          DeliverEv.onErrorCb e, DeliverEv.fatalAbortCall e]
    ∧ (applyDeliver freshCtrl
        (deliver [(SnapResult.thrValue e : SnapResult String)])).settle.outcome
      = some (SOutcome.rejectedWith e) := by
  refine ⟨rfl, ?_, rfl, ?_⟩
  · simp [deliver, applyDeliver, applyDeliverEv, benignAbort, freshCtrl,
      ctrlInit, cleanup, settlerResolve, settlerInit]
  · simp [deliver, applyDeliver, applyDeliverEv, fatalAbort, freshCtrl,
      ctrlInit, cleanup, settlerReject, settlerInit]

/-- C5 counterexample: with the data source being a promise that rejects
with `Error("boom")`, the delivery that the streaming render performs on
all-ready does not log `"Data promise rejected:"` (the store's internal
promise always fulfils, because `handleError` swallows the rejection) and
`done` does not reject with the original error: it rejects with the
store-produced wrapper `Error("SSR data fetch failed: boom")`, logged
under `"Unexpected throw from getSnapshot:"`. -/
theorem renderStream_rejected_data_cex :
    deliver (snapScriptPreSettle
        (DataSource.promiseSrc (PromiseSpec.rejectsWith { message := "boom" })
          : DataSource String))
      = [DeliverEv.errorLogTag "Unexpected throw from getSnapshot:"
            { message := "SSR data fetch failed: boom" },
          DeliverEv.onErrorCb { message := "SSR data fetch failed: boom" },
          DeliverEv.fatalAbortCall { message := "SSR data fetch failed: boom" }]
    ∧ DeliverEv.errorLogTag (V := String) "Data promise rejected:" { message := "boom" }
        ∉ deliver (snapScriptPreSettle
            (DataSource.promiseSrc (PromiseSpec.rejectsWith { message := "boom" })
              : DataSource String))
    ∧ (applyDeliver freshCtrl
        (deliver (snapScriptPreSettle
          (DataSource.promiseSrc (PromiseSpec.rejectsWith { message := "boom" })
            : DataSource String)))).settle.outcome
        ≠ some (SOutcome.rejectedWith { message := "boom" })
    ∧ (applyDeliver freshCtrl
        (deliver (snapScriptPreSettle
          (DataSource.promiseSrc (PromiseSpec.rejectsWith { message := "boom" })
            : DataSource String)))).settle.outcome
        = some (SOutcome.rejectedWith { message := "SSR data fetch failed: boom" }) := by
  refine ⟨by decide, by decide, by decide, by decide⟩

/-- C5 amended: for every streaming render whose data source promise
rejects with an error `e`, the failure is treated as fatal, but through
the store's wrapper: the store records `e` and flips to its error state,
its internal promise fulfils (so the retry runs instead of the
`"Data promise rejected:"` branch), the retried snapshot read throws the
non-thenable wrapper `Error("SSR data fetch failed: " + (e.message ||
'Unknown error'))`, delivery logs it under
`"Unexpected throw from getSnapshot:"`, notifies `onError` with the
wrapper, and the caller awaiting `done` observes a rejection carrying the
wrapper error, not the original `e`. -/
theorem renderStream_rejected_data_wrapper (e : JSErr) :
    deliver (snapScriptPreSettle
        (DataSource.promiseSrc (PromiseSpec.rejectsWith e) : DataSource String))
      = [DeliverEv.errorLogTag "Unexpected throw from getSnapshot:" (fetchFailedErr e),
          DeliverEv.onErrorCb (fetchFailedErr e),
          DeliverEv.fatalAbortCall (fetchFailedErr e)]
    ∧ (applyDeliver freshCtrl
        (deliver (snapScriptPreSettle
          (DataSource.promiseSrc (PromiseSpec.rejectsWith e)
            : DataSource String)))).settle.outcome
      = some (SOutcome.rejectedWith (fetchFailedErr e)) := by
  constructor
  · simp [snapScriptPreSettle, createSSRStoreInit, storeAfter, settleStore,
      getSnapshot, deliver, fetchFailedErr]
  · simp [snapScriptPreSettle, createSSRStoreInit, storeAfter, settleStore,
      getSnapshot, deliver, fetchFailedErr, applyDeliver, applyDeliverEv,
      fatalAbort, freshCtrl, ctrlInit, cleanup, settlerReject, settlerInit]

/-- C10: for each of the three source shapes that resolve to `undefined`
(raw `undefined`, a promise resolving to `undefined`, a factory whose
promise resolves to `undefined`), the settled store has status
`'success'` yet `getSnapshot()` throws the plain non-thenable
`Error("SSR data is undefined - store initialisation problem")`, so
all-ready delivery treats it as an unexpected failure: it notifies
`onError` with that error and fatal-aborts the controller with it, and
`done` rejects with it. -/
theorem getSnapshot_undefined_data_fatal :
    (storeAfter (DataSource.raw none : DataSource String)).status = .success
    ∧ (storeAfter (DataSource.promiseSrc (PromiseSpec.resolvesTo none)
        : DataSource String)).status = .success
    ∧ (storeAfter (DataSource.factorySrc (PromiseSpec.resolvesTo none)
        : DataSource String)).status = .success
    ∧ getSnapshot (storeAfter (DataSource.raw none : DataSource String))
        = .thrValue undefErr
    ∧ getSnapshot (storeAfter (DataSource.promiseSrc (PromiseSpec.resolvesTo none)
        : DataSource String)) = .thrValue undefErr
    ∧ getSnapshot (storeAfter (DataSource.factorySrc (PromiseSpec.resolvesTo none)
        : DataSource String)) = .thrValue undefErr
    ∧ deliver (snapScriptPreSettle (DataSource.raw none : DataSource String))
        = [DeliverEv.errorLogTag "Unexpected throw from getSnapshot:" undefErr,
            DeliverEv.onErrorCb undefErr, DeliverEv.fatalAbortCall undefErr]
    ∧ deliver (snapScriptPreSettle
          (DataSource.promiseSrc (PromiseSpec.resolvesTo none) : DataSource String))
        = [DeliverEv.errorLogTag "Unexpected throw from getSnapshot:" undefErr,
            DeliverEv.onErrorCb undefErr, DeliverEv.fatalAbortCall undefErr]
    ∧ deliver (snapScriptPreSettle
          (DataSource.factorySrc (PromiseSpec.resolvesTo none) : DataSource String))
        = [DeliverEv.errorLogTag "Unexpected throw from getSnapshot:" undefErr,
            DeliverEv.onErrorCb undefErr, DeliverEv.fatalAbortCall undefErr]
    ∧ (applyDeliver freshCtrl
        (deliver (snapScriptPreSettle
          (DataSource.raw none : DataSource String)))).settle.outcome
        = some (SOutcome.rejectedWith undefErr)
    ∧ (applyDeliver freshCtrl
        (deliver (snapScriptPreSettle
          (DataSource.promiseSrc (PromiseSpec.resolvesTo none)
            : DataSource String)))).settle.outcome
        = some (SOutcome.rejectedWith undefErr)
    ∧ (applyDeliver freshCtrl
        (deliver (snapScriptPreSettle
          (DataSource.factorySrc (PromiseSpec.resolvesTo none)
            : DataSource String)))).settle.outcome
        = some (SOutcome.rejectedWith undefErr) := by
  decide

/-! ## Shell-ready handler (src/unnamed/part_003, `onShellReady`,
lines 175-251)

The handler early-returns when `controller.isAborted`; otherwise it stops
the shell timer (wrapped), writes the head once (`writable.write(head)`,
whose boolean return drives backpressure), asks the caller's `onHead`
whether to force waiting for `'drain'` (a throwing `onHead` only warns and
leaves `forceWait` false), then starts piping — immediately, or on the
sink's `'drain'` event when backpressure was signalled and the sink
supports `once` — and finally invokes the caller's shell-ready callback
(wrapped, throwing only warns).  A drain-registered pipe start runs when
`'drain'` fires, so "pipe begins" counts both forms.  We count the
observable operations across invocations. -/

/-- Counters of the observable operations the shell-ready handler performs. -/
structure ShellState where
  timerStops : Nat
  headWrites : Nat
  pipeStartsNow : Nat
  drainPipes : Nat
  shellReadyCbs : Nat
  warnCount : Nat
deriving DecidableEq, Repr

/-- Environment of one shell-ready invocation: the controller's `isAborted`
flag at entry, what `writable.write(head)` returns, what the caller's
`onHead` does (`none` = it throws; `some b` = it returns `b`, where
returning `false` forces waiting for drain), and whether the sink has a
`once` function for `'drain'`. -/
structure ShellInvocation where
  ctrlAborted : Bool
  wroteOk : Bool
  onHeadResult : Option Bool
  hasOnceSupport : Bool
deriving DecidableEq, Repr

/-- Initial counters. -/
def shellInit : ShellState :=
  { timerStops := 0, headWrites := 0, pipeStartsNow := 0, drainPipes := 0
    shellReadyCbs := 0, warnCount := 0 }

/-- One `onShellReady()` invocation of the streaming facade. -/
def onShellReadyStep (s : ShellState) (i : ShellInvocation) : ShellState :=
  if i.ctrlAborted then s
  else
    let s1 : ShellState :=
      { s with timerStops := s.timerStops + 1, headWrites := s.headWrites + 1 }
    let s2 : ShellState :=
      match i.onHeadResult with
      | none => { s1 with warnCount := s1.warnCount + 1 }
      | some _ => s1
    let forceWait : Bool := i.onHeadResult == some false
    let s3 : ShellState :=
      if forceWait || !i.wroteOk then
        if i.hasOnceSupport then { s2 with drainPipes := s2.drainPipes + 1 }
        else { s2 with pipeStartsNow := s2.pipeStartsNow + 1 }
      else { s2 with pipeStartsNow := s2.pipeStartsNow + 1 }
    { s3 with shellReadyCbs := s3.shellReadyCbs + 1 }

/-- Run a sequence of shell-ready invocations. -/
def shellRun (s : ShellState) (is : List ShellInvocation) : ShellState :=
  is.foldl onShellReadyStep s

/-- Number of times piping has begun (immediately or via a registered
`'drain'` continuation, which starts the pipe when drain fires). -/
def pipeBegins (s : ShellState) : Nat := s.pipeStartsNow + s.drainPipes

/-- C7 counterexample: the handler carries no once-guard, only the
`isAborted` early return — so a shell-ready signal fired twice while the
controller is live (un-aborted, successful head write, `onHead` returning
`true`) writes the head twice and begins piping twice, contradicting the
claimed "at most one time". -/
theorem onShellReady_double_pipe_cex :
    pipeBegins (shellRun shellInit
        [{ ctrlAborted := false, wroteOk := true, onHeadResult := some true,
            hasOnceSupport := true },
          { ctrlAborted := false, wroteOk := true, onHeadResult := some true,
            hasOnceSupport := true }]) = 2
    ∧ (shellRun shellInit
        [{ ctrlAborted := false, wroteOk := true, onHeadResult := some true,
            hasOnceSupport := true },
          { ctrlAborted := false, wroteOk := true, onHeadResult := some true,
            hasOnceSupport := true }]).headWrites = 2
    ∧ ¬ (pipeBegins (shellRun shellInit
        [{ ctrlAborted := false, wroteOk := true, onHeadResult := some true,
            hasOnceSupport := true },
          { ctrlAborted := false, wroteOk := true, onHeadResult := some true,
            hasOnceSupport := true }]) ≤ 1) := by
  decide

theorem onShellReadyStep_pipeBegins (s : ShellState) (i : ShellInvocation) :
    pipeBegins (onShellReadyStep s i)
      = pipeBegins s + (if i.ctrlAborted then 0 else 1) := by
  rcases i with ⟨a, w, h, o⟩
  rcases h with _ | b
  · cases a <;> cases w <;> cases o <;>
      simp [onShellReadyStep, pipeBegins] <;> omega
  · cases a <;> cases w <;> cases o <;> cases b <;>
      simp [onShellReadyStep, pipeBegins] <;> omega

theorem onShellReadyStep_headWrites (s : ShellState) (i : ShellInvocation) :
    (onShellReadyStep s i).headWrites
      = s.headWrites + (if i.ctrlAborted then 0 else 1) := by
  rcases i with ⟨a, w, h, o⟩
  rcases h with _ | b
  · cases a <;> cases w <;> cases o <;>
      simp [onShellReadyStep]
  · cases a <;> cases w <;> cases o <;> cases b <;>
      simp [onShellReadyStep]

/-- Number of invocations in a sequence that find the controller live. -/
def liveInvocations (is : List ShellInvocation) : Nat :=
  (is.filter (fun i => !i.ctrlAborted)).length

/-- C7 amended: the head write and the pipe start happen exactly once per
shell-ready invocation that occurs while the controller is still live,
and invocations after an abort are complete no-ops — the `isAborted`
early return is the only guard, so piping begins exactly once in a run
where the engine fires shell-ready once (which the render engine
guarantees), but nothing in the handler itself suppresses a repeated
live shell-ready signal. -/
theorem onShellReady_pipe_per_live_invocation (is : List ShellInvocation) :
    pipeBegins (shellRun shellInit is) = liveInvocations is
    ∧ (shellRun shellInit is).headWrites = liveInvocations is := by
  have key : ∀ (js : List ShellInvocation) (s : ShellState),
      pipeBegins (shellRun s js) = pipeBegins s + liveInvocations js
      ∧ (shellRun s js).headWrites = s.headWrites + liveInvocations js := by
    intro js
    induction js with
    | nil => intro s; simp [shellRun, liveInvocations]
    | cons j js ih =>
        intro s
        have hstep := onShellReadyStep_pipeBegins s j
        have hhead := onShellReadyStep_headWrites s j
        have hrest := ih (onShellReadyStep s j)
        constructor
        · show pipeBegins (shellRun (onShellReadyStep s j) js) = _
          rw [hrest.1, hstep]
          cases hj : j.ctrlAborted <;>
            simp [liveInvocations, hj, Nat.add_assoc, Nat.add_comm,
              Nat.add_left_comm]
        · show (shellRun (onShellReadyStep s j) js).headWrites = _
          rw [hrest.2, hhead]
          cases hj : j.ctrlAborted <;>
            simp [liveInvocations, hj, Nat.add_assoc, Nat.add_comm,
              Nat.add_left_comm]
  have h := key is shellInit
  simpa [shellInit, pipeBegins] using h

/-! ## Streaming facade start-up (src/unnamed/part_003, `renderStream`,
lines 122-169, abort-signal wiring at lines 126-141)

After constructing the controller, `renderStream` inspects the optional
cancellation signal.  If the signal is already aborted it calls
`handleAbortSignal()` — i.e. `controller.benignAbort('AbortSignal
triggered; aborting stream for location: <location>')` — and returns
`{ abort: () => {}, done: Promise.resolve() }` before the transport
guards, the shell timer, or `renderToPipeableStream` are ever reached.
Otherwise it wires the listener/guards/timer, invokes the render engine
and returns `{ abort: () => controller.benignAbort('Manual abort for
location: <location>'), done: controller.done }`. -/

/-- State of the optional cancellation signal at the call. -/
inductive SignalState where
  | absent
  | presentLive
  | presentAborted
deriving DecidableEq, Repr

/-- The `abort` closure of the returned handle. -/
inductive HandleAbort where
  | noopAbort
  | manualBenign (location : String)
deriving DecidableEq, Repr

/-- The `done` promise of the returned handle: the dummy
`Promise.resolve()` of the early return, or the controller's `done`. -/
inductive HandleDone where
  | dummyResolved
  | controllerDone
deriving DecidableEq, Repr

/-- Result of the facade's start-up phase. -/
structure RenderStreamResult where
  ctrl : CtrlState
  engineInvoked : Bool
  handleAbort : HandleAbort
  handleDone : HandleDone
deriving DecidableEq, Repr

/-- Invoke the `abort` closure of a handle against a controller state. -/
def applyHandleAbort (h : HandleAbort) (c : CtrlState) : CtrlState :=
  match h with
  | .noopAbort => c
  | .manualBenign location =>
      benignAbort ("Manual abort for location: " ++ location) c

/-- Is the handle's `done` promise already resolved, given the controller
state? -/
def handleDoneResolved (d : HandleDone) (c : CtrlState) : Bool :=
  match d with
  | .dummyResolved => true
  | .controllerDone => c.settle.outcome == some .fulfilled

/-- Start-up phase of `renderStream`: controller creation, abort-signal
wiring with the already-aborted early return, and otherwise registration
of the remove-listener/guards/timer/engine-abort hooks around the engine
invocation. -/
def renderStreamStart (sig : SignalState) (location : String) : RenderStreamResult :=
  match sig with
  | .presentAborted =>
      { ctrl := benignAbort
          ("AbortSignal triggered; aborting stream for location: " ++ location)
          freshCtrl
        engineInvoked := false
        handleAbort := .noopAbort
        handleDone := .dummyResolved }
  | .presentLive =>
      { ctrl := ctrlInit
          { stopTimerCfg := { registered := true, throws := false }
            removeListenerCfg := { registered := true, throws := false }
            guardsCfg := { registered := true, throws := false }
            streamAbortCfg := { registered := true, throws := false }
            sinkEnded := false, sinkDestroyed := false, sinkDestroyThrows := false }
        engineInvoked := true
        handleAbort := .manualBenign location
        handleDone := .controllerDone }
  | .absent =>
      { ctrl := ctrlInit
          { stopTimerCfg := { registered := true, throws := false }
            removeListenerCfg := { registered := false, throws := false }
            guardsCfg := { registered := true, throws := false }
            streamAbortCfg := { registered := true, throws := false }
            sinkEnded := false, sinkDestroyed := false, sinkDestroyThrows := false }
        engineInvoked := true
        handleAbort := .manualBenign location
        handleDone := .controllerDone }

/-- C9: a streaming render invoked with an already-aborted cancellation
signal never invokes the render engine; the facade performs exactly one
benign abort (one teardown, one warning, `done` of the controller settled
fulfilled) and returns a dummy handle whose `done` is the already-resolved
`Promise.resolve()` and whose `abort()` is the no-op closure, which leaves
the controller state untouched when invoked. -/
theorem renderStream_preaborted_signal (location : String) :
    (renderStreamStart .presentAborted location).engineInvoked = false
    ∧ (renderStreamStart .presentAborted location).ctrl.aborted = true
    ∧ (renderStreamStart .presentAborted location).ctrl.teardowns = 1
    ∧ (renderStreamStart .presentAborted location).ctrl.warnLog
        = ["AbortSignal triggered; aborting stream for location: " ++ location]
    ∧ (renderStreamStart .presentAborted location).ctrl.settle.outcome
        = some SOutcome.fulfilled
    ∧ (renderStreamStart .presentAborted location).handleAbort = .noopAbort
    ∧ applyHandleAbort (renderStreamStart .presentAborted location).handleAbort
          (renderStreamStart .presentAborted location).ctrl
        = (renderStreamStart .presentAborted location).ctrl
    ∧ (renderStreamStart .presentAborted location).handleDone = .dummyResolved
    ∧ handleDoneResolved (renderStreamStart .presentAborted location).handleDone
          (renderStreamStart .presentAborted location).ctrl
        = true := by
  refine ⟨rfl, ?_, ?_, ?_, ?_, rfl, rfl, rfl, rfl⟩ <;>
    simp [renderStreamStart, benignAbort, freshCtrl, ctrlInit, cleanup,
      mkHook, invokeHook, destroyWritable, settlerResolve, settlerInit]

end Taujs
